import Mathlib

/-!
Shallow embedding of the retrieval pipeline of the nepse stock-data service
(`sql_app/functions.py`, `sql_app/route.py`, `sql_app/models.py`).

Modelling conventions:
* Python `float` values are modelled as `ℚ`; every numeric literal handled by
  the claims is exactly representable, and the code performs no float
  arithmetic other than parsing.
* Python `str` is Lean `String`; character-level operations work on `.data`.
* The persistent store (`db: Session` + the `nepse` table) is a `List Nepse`
  holding the table rows in table order; SQLAlchemy query chains are embedded
  as `filter` / sort / `drop` / `take` on that list.
* The Selenium driver is an external collaborator: a route takes the HTML
  fragment it would have produced (a successful fetch) as an argument.
* An uncaught Python exception escaping a route handler is `Response.crash`
  with the exception class name.
-/

/-! ### Numeric Coercion Utility (`sql_app/functions.py`: `safe_float`, `safe_int`) -/

/-- Numeric value of a digit character. -/
def dval (c : Char) : Nat := c.toNat - 48

/-- Value of a list of digit characters read in base 10. -/
def digitsVal (ds : List Char) : Nat := ds.foldl (fun a c => a * 10 + dval c) 0

/-- Unsigned part of Python `float(str)` on the modelled domain
(decimal literals `digits`, `digits.digits`, `.digits`, `digits.`);
other accepted Python spellings (exponents, inf/nan, underscores, whitespace)
do not occur in the claims and are outside the modelled domain. -/
def pyFloatMag (cs : List Char) : Option ℚ :=
  match cs.dropWhile (·.isDigit) with
  | [] =>
    if cs.takeWhile (·.isDigit) = [] then none
    else some ((digitsVal (cs.takeWhile (·.isDigit)) : ℚ))
  | '.' :: r2 =>
    if r2.dropWhile (·.isDigit) = [] then
      if cs.takeWhile (·.isDigit) = [] ∧ r2.takeWhile (·.isDigit) = [] then none
      else some ((digitsVal (cs.takeWhile (·.isDigit)) : ℚ)
                 + (digitsVal (r2.takeWhile (·.isDigit)) : ℚ)
                   / (10 : ℚ) ^ (r2.takeWhile (·.isDigit)).length)
    else none
  | _ => none

/-- Python `float(str)`: optional sign, then an unsigned decimal literal.
`none` models `ValueError`. -/
def pyFloat (cs : List Char) : Option ℚ :=
  match cs with
  | '-' :: t => (pyFloatMag t).map (fun q => -q)
  | '+' :: t => pyFloatMag t
  | t => pyFloatMag t

/-- Unsigned part of Python `int(str)`: a nonempty run of digits and nothing else. -/
def pyIntMag (cs : List Char) : Option ℤ :=
  if cs.dropWhile (·.isDigit) = [] ∧ cs ≠ [] then some ((digitsVal cs : ℤ)) else none

/-- Python `int(str)`: optional sign, then digits. `none` models `ValueError`. -/
def pyInt (cs : List Char) : Option ℤ :=
  match cs with
  | '-' :: t => (pyIntMag t).map (fun z => -z)
  | '+' :: t => pyIntMag t
  | t => pyIntMag t

/-- The cleaning applied by `safe_float` / `safe_int`:
`value.replace(',', '').replace('-', '0')` — every comma is removed, then
every dash (anywhere in the string) is replaced by the digit `'0'`. -/
def cleanNum (s : String) : List Char :=
  (s.data.filter (fun c => !(c = ','))).map (fun c => if c = '-' then '0' else c)

/-- Embedding of `safe_float` from `sql_app/functions.py`: clean, then `float(...)`,
returning `0.0` when the parse raises `ValueError`. -/
def safe_float (value : String) : ℚ := (pyFloat (cleanNum value)).getD 0

/-- Embedding of `safe_int` from `sql_app/functions.py`: clean, then `int(...)`,
returning `0` when the parse raises `ValueError`. -/
def safe_int (value : String) : ℤ := (pyInt (cleanNum value)).getD 0

/-! ### Date Format Adapter (`sql_app/functions.py`: `convert_date_format`) -/

/-- A Python `datetime.date` (only the calendar fields matter here). -/
structure PyDate where
  y : Nat
  m : Nat
  d : Nat
deriving DecidableEq

/-- Gregorian leap-year rule used by `datetime`. -/
def isLeap (y : Nat) : Bool := (y % 4 == 0 && y % 100 != 0) || y % 400 == 0

/-- Days in a month, as validated by the `datetime` constructor. -/
def daysInMonth (y m : Nat) : Nat :=
  if m = 2 then (if isLeap y then 29 else 28)
  else if m = 4 ∨ m = 6 ∨ m = 9 ∨ m = 11 then 30
  else 31

/-- The `%Y` directive of `strptime`: exactly four digits. -/
def parseYear4 : List Char → Option (Nat × List Char)
  | c1 :: c2 :: c3 :: c4 :: rest =>
    if c1.isDigit && c2.isDigit && c3.isDigit && c4.isDigit then
      some (((dval c1 * 10 + dval c2) * 10 + dval c3) * 10 + dval c4, rest)
    else none
  | _ => none

/-- The `%m` / `%d` directives of `strptime`: two digits with value in
`1..hi` (`hi` = 12 for months, 31 for days; `00` is rejected), or a single
digit `1..9` when the next character is not a digit. -/
def parseMonthDay (hi : Nat) : List Char → Option (Nat × List Char)
  | c1 :: c2 :: rest =>
    if c1.isDigit then
      if c2.isDigit then
        if 1 ≤ 10 * dval c1 + dval c2 ∧ 10 * dval c1 + dval c2 ≤ hi then
          some (10 * dval c1 + dval c2, rest)
        else none
      else
        if 1 ≤ dval c1 then some (dval c1, c2 :: rest) else none
    else none
  | [c1] =>
    if c1.isDigit then
      if 1 ≤ dval c1 then some (dval c1, []) else none
    else none
  | [] => none

/-- Embedding of `datetime.strptime(s, "%Y-%m-%d")`: `%Y`, literal `-`, `%m`, literal `-`,
`%d`, end of string, then the `datetime` constructor's calendar validation
(year ≥ 1; the four-digit year is ≤ 9999 by construction). `none` models the
raised `ValueError`. -/
def strptimeYMD (s : String) : Option PyDate :=
  match parseYear4 s.data with
  | none => none
  | some (y, r) =>
    match r with
    | [] => none
    | c :: r1 =>
      if c = '-' then
        match parseMonthDay 12 r1 with
        | none => none
        | some (m, r2) =>
          match r2 with
          | [] => none
          | c2 :: r3 =>
            if c2 = '-' then
              match parseMonthDay 31 r3 with
              | none => none
              | some (d, r4) =>
                match r4 with
                | [] => if 1 ≤ y ∧ d ≤ daysInMonth y m then some ⟨y, m, d⟩ else none
                | _ => none
            else none
      else none

/-- Zero-padded two-digit rendering (for `%m`, `%d`). -/
def pad2 (n : Nat) : List Char := [Nat.digitChar (n / 10), Nat.digitChar (n % 10)]

/-- Zero-padded four-digit rendering (for `%Y`). -/
def pad4 (n : Nat) : List Char :=
  [Nat.digitChar (n / 1000), Nat.digitChar (n / 100 % 10),
   Nat.digitChar (n / 10 % 10), Nat.digitChar (n % 10)]

/-- Rendering of `date_obj.strftime("%m/%d/%Y")`. -/
def strftimeMDY (dt : PyDate) : String :=
  ⟨pad2 dt.m ++ '/' :: pad2 dt.d ++ '/' :: pad4 dt.y⟩

/-- Rendering of `date_obj.strftime("%Y-%m-%d")` (also the canonical ISO rendering). -/
def strftimeYMD (dt : PyDate) : String :=
  ⟨pad4 dt.y ++ '-' :: pad2 dt.m ++ '-' :: pad2 dt.d⟩

/-- Embedding of `convert_date_format` from `sql_app/functions.py`: parse with
`strptime("%Y-%m-%d")`, render with `strftime("%m/%d/%Y")`; a parse failure
propagates as `ValueError` (`none`). -/
def convert_date_format (iso_date_str : String) : Option String :=
  (strptimeYMD iso_date_str).map strftimeMDY

/-- The calendar dates representable as `YYYY-MM-DD` and accepted by `datetime`. -/
def ValidDate (dt : PyDate) : Prop :=
  1 ≤ dt.y ∧ dt.y ≤ 9999 ∧ 1 ≤ dt.m ∧ dt.m ≤ 12 ∧ 1 ≤ dt.d ∧ dt.d ≤ daysInMonth dt.y dt.m

instance : DecidablePred ValidDate := fun dt => by unfold ValidDate; infer_instance

/-! ### Table Extractor (`sql_app/functions.py`:
`process_html_to_dataframe_date`, `process_html_to_dataframe_symbol`)

The HTML fragment is modelled at the level the two XPath queries observe it:
a list of tables; each table has a `class` attribute (we record whether it
contains `table__lg`) and row groups (`thead` / `tbody` ...) in document
order; each row records the stripped text contents of its `td` cells
(header cells are `th`, hence contribute no `td` text). -/

/-- A `tr` element: stripped text content of each `td` descendant. -/
structure Tr where
  cells : List String
deriving DecidableEq

/-- A row group (`thead`, `tbody`, ...): its `tr` children in order. -/
structure RowGroup where
  isTbody : Bool
  rows : List Tr
deriving DecidableEq

/-- A `table` element. -/
structure HtmlTable where
  classTableLg : Bool
  groups : List RowGroup
deriving DecidableEq

/-- The raw HTML fragment handed to the extractor. -/
abbrev Fragment := List HtmlTable

/-- XPath `//tr[position() > 1]` in document order: within each parent
element, every `tr` except the first. -/
def xpathTrAfterFirst (frag : Fragment) : List Tr :=
  frag.flatMap (fun t => t.groups.flatMap (fun g => g.rows.drop 1))

/-- XPath `//table[contains(@class, "table__lg")]/tbody/tr` in document
order: all `tbody` rows of the matching tables. -/
def xpathTableLgTbodyTr (frag : Fragment) : List Tr :=
  (frag.filter (·.classTableLg)).flatMap
    (fun t => (t.groups.filter (·.isTbody)).flatMap (·.rows))

/-- One record of the extracted DataFrame (one accepted row; the column
names of the dict built in `process_html_to_dataframe_*`). -/
structure ScrapedRow where
  Symbol : String
  Close_Price_Rs : ℚ
  Open_Price_Rs : ℚ
  High_Price_Rs : ℚ
  Low_Price_Rs : ℚ
  Total_Traded_Quantity : ℤ
  Total_Traded_Value : ℚ
  Total_Trades : ℤ
  LTP : String
  Previous_Day_Close_Price_Rs : ℚ
  Average_Traded_Price_Rs : ℚ
  Fifty_Two_Week_High_Rs : ℚ
  Fifty_Two_Week_Low_Rs : ℚ
  Market_Capitalization_Rs__Amt_in_Millions : ℚ
  Close_Date : String
deriving DecidableEq

/-- The fixed column-to-field mapping applied to an accepted 15-cell row
(`cells[1]` .. `cells[14]`; `cells[0]` is the page's serial column and is
unused). `closeCanon` is the reformatted session date shared by all rows. -/
def mkScraped (closeCanon : String) (tr : Tr) : ScrapedRow where
  Symbol := tr.cells.getD 1 ""
  Close_Price_Rs := safe_float (tr.cells.getD 2 "")
  Open_Price_Rs := safe_float (tr.cells.getD 3 "")
  High_Price_Rs := safe_float (tr.cells.getD 4 "")
  Low_Price_Rs := safe_float (tr.cells.getD 5 "")
  Total_Traded_Quantity := safe_int (tr.cells.getD 6 "")
  Total_Traded_Value := safe_float (tr.cells.getD 7 "")
  Total_Trades := safe_int (tr.cells.getD 8 "")
  LTP := tr.cells.getD 9 ""
  Previous_Day_Close_Price_Rs := safe_float (tr.cells.getD 10 "")
  Average_Traded_Price_Rs := safe_float (tr.cells.getD 11 "")
  Fifty_Two_Week_High_Rs := safe_float (tr.cells.getD 12 "")
  Fifty_Two_Week_Low_Rs := safe_float (tr.cells.getD 13 "")
  Market_Capitalization_Rs__Amt_in_Millions := safe_float (tr.cells.getD 14 "")
  Close_Date := closeCanon

/-- The `len(cells) != 15: continue` acceptance test. -/
def acceptedRows (rows : List Tr) : List Tr :=
  rows.filter (fun tr => tr.cells.length == 15)

deriving instance DecidableEq for Except

/-- A raw innerHTML string as `lxml.html.fromstring` classifies it: either an
empty (or whitespace-only) document, which `fromstring` rejects with
`ParserError("Document is empty")`, or a parseable document, recorded here by
the table structure the XPath queries observe in it. -/
inductive RawHtml where
  | emptyDoc
  | doc (frag : Fragment)
deriving DecidableEq

/-- Embedding of `lxml.html.fromstring(html_content)`: the parsed document,
or `none` for the raised `ParserError` on an empty document. -/
def html_fromstring : RawHtml → Option Fragment
  | .emptyDoc => none
  | .doc frag => some frag

/-- Shared body of the two extractor variants after parsing: accepted rows,
mapped through the column mapping; every accepted row evaluates
`strptime(date_str, "%Y-%m-%d").strftime("%Y-%m-%d")`, so with at least one
accepted row an unparseable `date_str` raises `ValueError`; with no accepted
rows the DataFrame is empty regardless of `date_str`. -/
def processRows (rows : List Tr) (date_str : String) : Except String (List ScrapedRow) :=
  match rows with
  | [] => .ok []
  | _ =>
    match strptimeYMD date_str with
    | none => .error "ValueError"
    | some dt => .ok (rows.map (mkScraped (strftimeYMD dt)))

/-- Embedding of `process_html_to_dataframe_date`: parse the raw fragment
with `html.fromstring` (raising `ParserError` on an empty document), then
extract the rows located by `//tr[position() > 1]`. `.error` carries the
class of the raised exception. -/
def process_html_to_dataframe_date (html_content : RawHtml) (date_str : String) :
    Except String (List ScrapedRow) :=
  match html_fromstring html_content with
  | none => .error "ParserError"
  | some root => processRows (acceptedRows (xpathTrAfterFirst root)) date_str

/-- Embedding of `process_html_to_dataframe_symbol`: parse the raw fragment
with `html.fromstring` (raising `ParserError` on an empty document), then
extract the rows located by `//table[contains(@class, "table__lg")]/tbody/tr`. -/
def process_html_to_dataframe_symbol (html_content : RawHtml) (date_str : String) :
    Except String (List ScrapedRow) :=
  match html_fromstring html_content with
  | none => .error "ParserError"
  | some root => processRows (acceptedRows (xpathTableLgTbodyTr root)) date_str

/-! ### Store model (`sql_app/models.py`: `Nepse`) and query embedding -/

/-- A row of the `nepse` table. Columns other than the primary key `Sn` are
nullable in the schema; the claims never exercise NULLs, so they are
modelled as present values. -/
structure Nepse where
  Sn : ℤ
  Symbol : String
  Close_Price_Rs : ℚ
  Open_Price_Rs : ℚ
  High_Price_Rs : ℚ
  Low_Price_Rs : ℚ
  Total_Traded_Quantity : ℤ
  Total_Traded_Value : ℚ
  Total_Trades : ℤ
  LTP : String
  Previous_Day_Close_Price_Rs : ℚ
  Average_Traded_Price_Rs : ℚ
  Fifty_Two_Week_High_Rs : ℚ
  Fifty_Two_Week_Low_Rs : ℚ
  Market_Capitalization_Rs__Amt_in_Millions : ℚ
  Close_Date : PyDate
deriving DecidableEq

/-- Embedding of `db.query(Nepse).filter(Nepse.Close_Date == date_obj)` on a store
holding the table rows in table order. -/
def queryByDate (store : List Nepse) (dt : PyDate) : List Nepse :=
  store.filter (fun r => decide (r.Close_Date = dt))

/-- Embedding of `.order_by(Nepse.Sn)`: ascending sort on the serial column. -/
def orderBySn (l : List Nepse) : List Nepse :=
  l.insertionSort (fun a b => a.Sn ≤ b.Sn)

/-- Embedding of `.filter(date).order_by(Sn).offset((page-1)*page_size).limit(page_size).all()`. -/
def dbWindow (store : List Nepse) (dt : PyDate) (page page_size : Nat) : List Nepse :=
  ((orderBySn (queryByDate store dt)).drop ((page - 1) * page_size)).take page_size

/-! ### Retrieval pipeline (`sql_app/route.py`) -/

/-- An entry of a success envelope's `data` list: either the dict built from
a store row or a record of the scraped DataFrame. -/
inductive Datum where
  | fromDb (r : Nepse)
  | fromScrape (r : ScrapedRow)
deriving DecidableEq

/-- Observable outcome of a route handler. `httpError` is a raised
`HTTPException`; `payload` is the success envelope
`{data, page, page_size, total_records}`; `message` is an informational
`{message: ...}` result; `crash` is an uncaught Python exception escaping
the handler (named by its class). -/
inductive Response where
  | httpError (status : Nat) (detail : String)
  | payload (data : List Datum) (page page_size total_records : Nat)
  | message (text : String)
  | crash (exc : String)
deriving DecidableEq

/-- Embedding of `GET /stocks_data_date` (`get_stock_by_date` in `sql_app/route.py`).
`fragment` models the inner HTML returned by a successful Selenium fetch
(possibly empty); the store is queried first, the scrape runs only on a
store miss; an exception raised by the extractor escapes the handler. -/
def get_stock_by_date (store : List Nepse) (fragment : RawHtml)
    (date : String) (page page_size : Nat) : Response :=
  match strptimeYMD date with
  | none => .httpError 400 "Invalid date format, please use YYYY-MM-DD format."
  | some dt =>
    let data := dbWindow store dt page page_size
    if data ≠ [] then
      .payload (data.map .fromDb) page page_size (queryByDate store dt).length
    else
      match convert_date_format date with
      | none => .httpError 400 "Date format should be YYYY-MM-DD"
      | some _formatted =>
        match process_html_to_dataframe_date fragment date with
        | .error exc => .crash exc
        | .ok df =>
          if df = [] then .message "No data found for the specified date"
          else
            let paginated := (df.drop ((page - 1) * page_size)).take page_size
            if paginated = [] then .message "No data found on this page"
            else .payload (paginated.map .fromScrape) page page_size df.length

/-- Embedding of `GET /stocks_data_date_and_symbol` (`get_stock_by_date_and_symbol` in
`sql_app/route.py`). The database query filters only by
`Nepse.Close_Date == date_obj` (the `symbol` argument is not part of the
filter) and ends in `.first()`, so a store hit yields a single ORM instance;
the handler then runs `[... for item in data]` over that instance, which
raises `TypeError` (a `Nepse` object is not iterable). -/
def get_stock_by_date_and_symbol (store : List Nepse) (fragment : RawHtml)
    (date : String) (symbol : String) (page page_size : Nat) : Response :=
  match strptimeYMD date with
  | none => .httpError 400 "Invalid date format, please use YYYY-MM-DD format."
  | some dt =>
    match (dbWindow store dt page page_size).head? with
    | some _item => .crash "TypeError"
    | none =>
      match convert_date_format date with
      | none => .httpError 400 "Date format should be YYYY-MM-DD"
      | some _formatted =>
        match process_html_to_dataframe_symbol fragment date with
        | .error exc => .crash exc
        | .ok df =>
          if df = [] then .message "No data found for the specified date"
          else
            let paginated := (df.drop ((page - 1) * page_size)).take page_size
            if paginated = [] then .message "No data found on this page"
            else .payload (paginated.map .fromScrape) page page_size df.length

/-- Outcome of `PUT /stocks_data`: an `HTTPException`, or the refreshed ORM
record together with the store after `db.commit()`. -/
inductive UpdateResult where
  | httpError (status : Nat) (detail : String)
  | updated (item : Nepse) (newStore : List Nepse)
deriving DecidableEq

/-- Replace the first list element satisfying `p` (the mutation of the ORM
instance returned by `.first()`, as seen by the committed table). -/
def setFirst (p : Nepse → Bool) (newR : Nepse) : List Nepse → List Nepse
  | [] => []
  | r :: rs => if p r then newR :: rs else r :: setFirst p newR rs

/-- The row-matching predicate of `update_stock`'s query:
`and_(Nepse.Close_Date == parsed_close_date, Nepse.Symbol == symbol)`. -/
def updMatches (symbol : String) (dt : PyDate) (r : Nepse) : Bool :=
  decide (r.Close_Date = dt) && decide (r.Symbol = symbol)

/-- Embedding of `PUT /stocks_data` (`update_stock` in `sql_app/route.py`). The query has
no `order_by`, so `.first()` is the first match in table order. Every column
field is reassigned from the request — except the market-capitalization
column: the handler assigns `item.Market_Capitalization_Rs_Amt_in_Millions`
(single underscore), which is not a mapped column of `Nepse`
(the column is `Market_Capitalization_Rs__Amt_in_Millions`), so the
assignment creates a plain instance attribute and the column keeps its old
value through `db.commit()` / `db.refresh(item)`. -/
def update_stock (store : List Nepse) (symbol : String)
    (close_price_rs open_price_rs high_price_rs low_price_rs : ℚ)
    (total_traded_quantity : ℤ) (total_traded_value : ℚ) (total_trades : ℤ)
    (ltp : String)
    (previous_day_close_price_rs average_traded_price_rs : ℚ)
    (fifty_two_week_high_rs fifty_two_week_low_rs : ℚ)
    (market_capitalization_rs_amt_in_millions : ℚ)
    (close_date : String) : UpdateResult :=
  match strptimeYMD close_date with
  | none => .httpError 400 "Invalid date format. Please use YYYY-MM-DD format."
  | some dt =>
    match (store.filter (updMatches symbol dt)).head? with
    | none => .httpError 404 "Stock record not found."
    | some item =>
      let item' : Nepse :=
        { item with
          Close_Price_Rs := close_price_rs
          Open_Price_Rs := open_price_rs
          High_Price_Rs := high_price_rs
          Low_Price_Rs := low_price_rs
          Total_Traded_Quantity := total_traded_quantity
          Total_Traded_Value := total_traded_value
          Total_Trades := total_trades
          LTP := ltp
          Previous_Day_Close_Price_Rs := previous_day_close_price_rs
          Average_Traded_Price_Rs := average_traded_price_rs
          Fifty_Two_Week_High_Rs := fifty_two_week_high_rs
          Fifty_Two_Week_Low_Rs := fifty_two_week_low_rs
          Close_Date := dt }
      let _dead := market_capitalization_rs_amt_in_millions
      .updated item' (setFirst (updMatches symbol dt) item' store)

/-! ### Concrete sample data (used by the witness theorems) -/

/-- A store row with every numeric column 1 and `LTP = "1"`. -/
def mkNepse (sn : ℤ) (sym : String) (dt : PyDate) : Nepse :=
  ⟨sn, sym, 1, 1, 1, 1, 1, 1, 1, "1", 1, 1, 1, 1, 1, dt⟩

/-- A store holding three rows for 2024-07-03 (end-to-end scenario A). -/
def store3 : List Nepse :=
  [mkNepse 1 "AAA" ⟨2024, 7, 3⟩, mkNepse 2 "BBB" ⟨2024, 7, 3⟩, mkNepse 3 "CCC" ⟨2024, 7, 3⟩]

/-- A store holding a single row, for symbol "AAA" on 2024-07-03. -/
def store1 : List Nepse := [mkNepse 1 "AAA" ⟨2024, 7, 3⟩]

/-- A header row: its cells are `th` elements, so it has no `td` text. -/
def headerTr : Tr := ⟨[]⟩

/-- A well-formed data row (exactly 15 `td` cells). -/
def goodRow (sym : String) : Tr :=
  ⟨[sym, sym, "1", "2", "3", "4", "5", "6", "7", "L", "8", "9", "10", "11", "12"]⟩

/-- A malformed row (2 cells instead of 15). -/
def badRow : Tr := ⟨["a", "b"]⟩

/-- Well-formed, malformed, well-formed. -/
def rowsMix : List Tr := [goodRow "S1", badRow, goodRow "S2"]

/-- Seven well-formed data rows. -/
def rows7 : List Tr :=
  [goodRow "S1", goodRow "S2", goodRow "S3", goodRow "S4", goodRow "S5",
   goodRow "S6", goodRow "S7"]

/-- A fragment whose table holds a header row plus seven well-formed rows
(end-to-end scenario B). -/
def fragment7 : Fragment := [⟨true, [⟨true, headerTr :: rows7⟩]⟩]

/-- A `table__lg` table whose header row sits in its own `thead` row group
while the two well-formed data rows sit in the `tbody` — the shape a
browser-rendered table with `<thead>` produces. -/
def fragmentTheadTbody : Fragment :=
  [⟨true, [⟨false, [headerTr]⟩, ⟨true, [goodRow "S1", goodRow "S2"]⟩]⟩]

/-- The DataFrame extracted from `fragment7` for 2024-07-04. -/
def df7 : List ScrapedRow :=
  (process_html_to_dataframe_date (RawHtml.doc fragment7) "2024-07-04").toOption.getD []

/-- The single stored row targeted by the update scenario. -/
def recA : Nepse := mkNepse 1 "AAA" ⟨2024, 7, 3⟩

/-- What the update scenario's store row looks like after
`update_stock [recA] "AAA" 2 2 2 2 2 2 2 "L2" 2 2 2 2 99 "2024-07-03"`:
every column reassigned to the request value except the
market-capitalization column, which keeps its old value 1. -/
def recA' : Nepse :=
  ⟨1, "AAA", 2, 2, 2, 2, 2, 2, 2, "L2", 2, 2, 2, 2, 1, ⟨2024, 7, 3⟩⟩

/-! ### Helper lemmas: numeric coercion -/

theorem pyFloatMag_nonneg {cs : List Char} {q : ℚ} (h : pyFloatMag cs = some q) : 0 ≤ q := by
  unfold pyFloatMag at h
  split at h
  · split at h
    · exact absurd h (by simp)
    · injection h with h
      rw [← h]
      positivity
  · split at h
    · split at h
      · exact absurd h (by simp)
      · injection h with h
        rw [← h]
        positivity
    · exact absurd h (by simp)
  · exact absurd h (by simp)

theorem pyIntMag_nonneg {cs : List Char} {z : ℤ} (h : pyIntMag cs = some z) : 0 ≤ z := by
  unfold pyIntMag at h
  split at h
  · injection h with h
    rw [← h]
    positivity
  · exact absurd h (by simp)

theorem cleanNum_no_dash (s : String) : '-' ∉ cleanNum s := by
  intro hmem
  unfold cleanNum at hmem
  rcases List.mem_map.mp hmem with ⟨c, _, hc⟩
  by_cases hcd : c = '-'
  · rw [if_pos hcd] at hc
    exact absurd hc (by decide)
  · rw [if_neg hcd] at hc
    exact hcd hc

theorem pyFloatMag_getD_nonneg (cs : List Char) : 0 ≤ (pyFloatMag cs).getD 0 := by
  cases hm : pyFloatMag cs with
  | none => simp
  | some q => simpa using pyFloatMag_nonneg hm

theorem pyIntMag_getD_nonneg (cs : List Char) : 0 ≤ (pyIntMag cs).getD 0 := by
  cases hm : pyIntMag cs with
  | none => simp
  | some z => simpa using pyIntMag_nonneg hm

theorem safe_float_nonneg (s : String) : 0 ≤ safe_float s := by
  have hnd : '-' ∉ cleanNum s := cleanNum_no_dash s
  unfold safe_float pyFloat
  split
  · next t heq =>
    rw [heq] at hnd
    exact absurd (List.mem_cons_self _ _) hnd
  · next t _ =>
    exact pyFloatMag_getD_nonneg t
  · next _ _ =>
    exact pyFloatMag_getD_nonneg _

theorem safe_int_nonneg (s : String) : 0 ≤ safe_int s := by
  have hnd : '-' ∉ cleanNum s := cleanNum_no_dash s
  unfold safe_int pyInt
  split
  · next t heq =>
    rw [heq] at hnd
    exact absurd (List.mem_cons_self _ _) hnd
  · next t _ =>
    exact pyIntMag_getD_nonneg t
  · next _ _ =>
    exact pyIntMag_getD_nonneg _

theorem safe_float_comma_example : safe_float "1,234.5" = 1234.5 := by
  have h : safe_float "1,234.5"
      = ((digitsVal ['1', '2', '3', '4'] : ℚ)
         + (digitsVal ['5'] : ℚ) / (10 : ℚ) ^ (1 : ℕ)) := rfl
  have h2 : digitsVal ['1', '2', '3', '4'] = 1234 := by decide
  have h3 : digitsVal ['5'] = 5 := by decide
  rw [h, h2, h3]
  norm_num

theorem safe_float_dash_example : safe_float "-" = 0 := by
  have h : safe_float "-" = ((digitsVal ['0'] : ℚ)) := rfl
  have h2 : digitsVal ['0'] = 0 := by decide
  rw [h, h2]
  norm_num

theorem safe_int_comma_example : safe_int "2,000" = 2000 := by
  have h : safe_int "2,000" = ((digitsVal ['2', '0', '0', '0'] : ℤ)) := rfl
  have h2 : digitsVal ['2', '0', '0', '0'] = 2000 := by decide
  rw [h, h2]
  norm_num

/-! ### Helper lemmas: date parsing and rendering -/

theorem digitChar_isDigit : ∀ k, k < 10 → (Nat.digitChar k).isDigit = true := by decide

theorem dval_digitChar : ∀ k, k < 10 → dval (Nat.digitChar k) = k := by decide

theorem daysInMonth_le_31 (y m : Nat) : daysInMonth y m ≤ 31 := by
  unfold daysInMonth
  split
  · split <;> omega
  · split <;> omega

theorem parseYear4_pad4 (y : Nat) (rest : List Char) (h : y ≤ 9999) :
    parseYear4 (pad4 y ++ rest) = some (y, rest) := by
  have h1 : (Nat.digitChar (y / 1000)).isDigit = true := digitChar_isDigit _ (by omega)
  have h2 : (Nat.digitChar (y / 100 % 10)).isDigit = true := digitChar_isDigit _ (by omega)
  have h3 : (Nat.digitChar (y / 10 % 10)).isDigit = true := digitChar_isDigit _ (by omega)
  have h4 : (Nat.digitChar (y % 10)).isDigit = true := digitChar_isDigit _ (by omega)
  have v1 : dval (Nat.digitChar (y / 1000)) = y / 1000 := dval_digitChar _ (by omega)
  have v2 : dval (Nat.digitChar (y / 100 % 10)) = y / 100 % 10 := dval_digitChar _ (by omega)
  have v3 : dval (Nat.digitChar (y / 10 % 10)) = y / 10 % 10 := dval_digitChar _ (by omega)
  have v4 : dval (Nat.digitChar (y % 10)) = y % 10 := dval_digitChar _ (by omega)
  have hy : ((y / 1000 * 10 + y / 100 % 10) * 10 + y / 10 % 10) * 10 + y % 10 = y := by omega
  simp [pad4, parseYear4, h1, h2, h3, h4, v1, v2, v3, v4, hy]

theorem parseMonthDay_pad2 (hi n : Nat) (rest : List Char)
    (h1 : 1 ≤ n) (h2 : n ≤ hi) (h99 : n ≤ 99) :
    parseMonthDay hi (pad2 n ++ rest) = some (n, rest) := by
  have ha : (Nat.digitChar (n / 10)).isDigit = true := digitChar_isDigit _ (by omega)
  have hb : (Nat.digitChar (n % 10)).isDigit = true := digitChar_isDigit _ (by omega)
  have va : dval (Nat.digitChar (n / 10)) = n / 10 := dval_digitChar _ (by omega)
  have vb : dval (Nat.digitChar (n % 10)) = n % 10 := dval_digitChar _ (by omega)
  have hn : 10 * (n / 10) + n % 10 = n := by omega
  simp [pad2, parseMonthDay, ha, hb, va, vb, hn]
  exact ⟨h1, h2⟩

theorem strptime_strftime_roundtrip (dt : PyDate) (h : ValidDate dt) :
    strptimeYMD (strftimeYMD dt) = some dt := by
  obtain ⟨y, m, d⟩ := dt
  obtain ⟨hy1, hy2, hm1, hm2, hd1, hd2⟩ := h
  dsimp only at hy1 hy2 hm1 hm2 hd1 hd2
  have hd31 : d ≤ 31 := le_trans hd2 (daysInMonth_le_31 y m)
  have hs : (strftimeYMD ⟨y, m, d⟩).data
      = pad4 y ++ '-' :: (pad2 m ++ '-' :: pad2 d) := by
    simp [strftimeYMD]
  unfold strptimeYMD
  rw [hs, parseYear4_pad4 y _ hy2]
  dsimp only
  rw [if_pos (rfl : ('-' : Char) = '-'), parseMonthDay_pad2 12 m _ hm1 hm2 (by omega)]
  dsimp only
  rw [if_pos (rfl : ('-' : Char) = '-'),
    show pad2 d = pad2 d ++ [] by simp,
    parseMonthDay_pad2 31 d [] hd1 hd31 (by omega)]
  dsimp only
  rw [if_pos ⟨hy1, hd2⟩]

/-! ### Helper lemmas: table extraction -/

theorem processRows_of_parse {date : String} {dt : PyDate} (rows : List Tr)
    (h : strptimeYMD date = some dt) :
    processRows rows date = .ok (rows.map (mkScraped (strftimeYMD dt))) := by
  cases rows with
  | nil => rfl
  | cons a t =>
    dsimp only [processRows]
    rw [h]

/-! ### Claim theorems -/

/-- C8: the Date Format Adapter maps every valid ISO date `YYYY-MM-DD` to the
display form `MM/DD/YYYY` (in particular `"2024-07-03" ↦ "07/03/2024"`), and
fails (raises `ValueError`, modelled as `none`) for every input string that
does not parse as an ISO calendar date. -/
theorem convert_date_format_contract :
    (∀ dt : PyDate, ValidDate dt →
      convert_date_format (strftimeYMD dt) = some (strftimeMDY dt))
    ∧ (∀ s : String, strptimeYMD s = none → convert_date_format s = none)
    ∧ convert_date_format "2024-07-03" = some "07/03/2024"
    ∧ convert_date_format "not-a-date" = none := by
  refine ⟨?_, ?_, by decide, by decide⟩
  · intro dt h
    unfold convert_date_format
    rw [strptime_strftime_roundtrip dt h]
    rfl
  · intro s h
    unfold convert_date_format
    rw [h]
    rfl

/-- Witness for C8 at the concrete date 2024-07-03 and a concrete bad input. -/
theorem convert_date_format_contract_witness :
    ValidDate ⟨2024, 7, 3⟩
    ∧ convert_date_format (strftimeYMD ⟨2024, 7, 3⟩) = some (strftimeMDY ⟨2024, 7, 3⟩)
    ∧ strptimeYMD "nope" = none
    ∧ convert_date_format "nope" = none :=
  ⟨by decide, convert_date_format_contract.1 ⟨2024, 7, 3⟩ (by decide), by decide,
   convert_date_format_contract.2.1 "nope" (by decide)⟩

/-- C6 counterexample: a `table__lg` table holding a header row in its own
`thead` row group and two well-formed (15-cell) data rows in the `tbody`.
The claim demands exactly 2 records, but `//tr[position() > 1]` restarts
`position()` at each parent, so the date variant also drops the first
`tbody` row and extracts only 1 record (the one for symbol "S2"). -/
theorem table_extractor_thead_counterexample :
    ((process_html_to_dataframe_date (RawHtml.doc fragmentTheadTbody) "2024-07-03").toOption.getD
        []).map ScrapedRow.Symbol = ["S2"]
    ∧ ((process_html_to_dataframe_date (RawHtml.doc fragmentTheadTbody) "2024-07-03").toOption.getD
        []).length = 1
    ∧ ¬ ((process_html_to_dataframe_date (RawHtml.doc fragmentTheadTbody) "2024-07-03").toOption.getD
        []).length = 2
    ∧ (acceptedRows [goodRow "S1", goodRow "S2"]).length = 2 :=
  ⟨by decide, by decide, by decide, by decide⟩

/-- C6 (amended): for a fragment consisting of a `table__lg` table in which
the header row (cell count ≠ 15, e.g. `th` cells) and the data rows are
sibling rows of a single `tbody` row group with the header first, both
extractor variants yield exactly the well-formed (15-cell) data rows in
document order — the header and every malformed row are skipped. (The
sibling restriction is forced: with the header in its own `thead` group the
date variant also drops the first data row, see the counterexample.) -/
theorem table_extractor_header_and_malformed_skipped :
    ∀ (date : String) (dt : PyDate) (header : Tr) (rest : List Tr),
      strptimeYMD date = some dt →
      header.cells.length ≠ 15 →
      process_html_to_dataframe_date (RawHtml.doc [⟨true, [⟨true, header :: rest⟩]⟩]) date
          = .ok ((acceptedRows rest).map (mkScraped (strftimeYMD dt)))
      ∧ process_html_to_dataframe_symbol (RawHtml.doc [⟨true, [⟨true, header :: rest⟩]⟩]) date
          = .ok ((acceptedRows rest).map (mkScraped (strftimeYMD dt))) := by
  intro date dt header rest hparse hlen
  have hx1 : xpathTrAfterFirst [⟨true, [⟨true, header :: rest⟩]⟩] = rest := by
    simp [xpathTrAfterFirst]
  have hx2 : xpathTableLgTbodyTr [⟨true, [⟨true, header :: rest⟩]⟩] = header :: rest := by
    simp [xpathTableLgTbodyTr]
  have hbeq : (header.cells.length == 15) = false := by simpa using hlen
  have hacc : acceptedRows (header :: rest) = acceptedRows rest := by
    simp [acceptedRows, List.filter_cons, hbeq]
  constructor
  · unfold process_html_to_dataframe_date html_fromstring
    dsimp only
    rw [hx1]
    exact processRows_of_parse _ hparse
  · unfold process_html_to_dataframe_symbol html_fromstring
    dsimp only
    rw [hx2, hacc]
    exact processRows_of_parse _ hparse

/-- Witness for C6 (amended): header + [well-formed, malformed, well-formed]
as sibling rows yields exactly the 2 well-formed records under both
variants. -/
theorem table_extractor_header_and_malformed_skipped_witness :
    process_html_to_dataframe_date (RawHtml.doc [⟨true, [⟨true, headerTr :: rowsMix⟩]⟩])
        "2024-07-03"
        = .ok ((acceptedRows rowsMix).map (mkScraped (strftimeYMD ⟨2024, 7, 3⟩)))
    ∧ process_html_to_dataframe_symbol (RawHtml.doc [⟨true, [⟨true, headerTr :: rowsMix⟩]⟩])
        "2024-07-03"
        = .ok ((acceptedRows rowsMix).map (mkScraped (strftimeYMD ⟨2024, 7, 3⟩)))
    ∧ (acceptedRows rowsMix).length = 2 :=
  ⟨(table_extractor_header_and_malformed_skipped "2024-07-03" ⟨2024, 7, 3⟩ headerTr rowsMix
      (by decide) (by decide)).1,
   (table_extractor_header_and_malformed_skipped "2024-07-03" ⟨2024, 7, 3⟩ headerTr rowsMix
      (by decide) (by decide)).2,
   by decide⟩

/-- C7 counterexample: on the empty fragment — the input the claim
emphasizes — both extractor variants fail: `lxml.html.fromstring` raises
`ParserError("Document is empty")` before any row is located, so no empty
sequence is returned. -/
theorem table_extractor_empty_fragment_raises :
    process_html_to_dataframe_date RawHtml.emptyDoc "2024-07-04" = .error "ParserError"
    ∧ process_html_to_dataframe_symbol RawHtml.emptyDoc "2024-07-04" = .error "ParserError"
    ∧ ¬ process_html_to_dataframe_date RawHtml.emptyDoc "2024-07-04" = .ok [] :=
  ⟨rfl, rfl, by decide⟩

/-- C7 (amended): the extractor fails with `ParserError` only on an empty
(or whitespace-only) fragment; every parseable fragment is safe — a
parseable document with no tables yields `.ok []` for any session date, and
with a validated session date no parseable fragment makes either variant
fail. -/
theorem table_extractor_parseable_never_fails :
    (∀ date : String, process_html_to_dataframe_date (RawHtml.doc []) date = .ok [])
    ∧ (∀ date : String, process_html_to_dataframe_symbol (RawHtml.doc []) date = .ok [])
    ∧ ∀ (frag : Fragment) (date : String) (dt : PyDate), strptimeYMD date = some dt →
        (process_html_to_dataframe_date (RawHtml.doc frag) date).toOption.isSome = true
        ∧ (process_html_to_dataframe_symbol (RawHtml.doc frag) date).toOption.isSome = true := by
  refine ⟨fun date => rfl, fun date => rfl, ?_⟩
  intro frag date dt h
  constructor
  · unfold process_html_to_dataframe_date html_fromstring
    dsimp only
    rw [processRows_of_parse _ h]
    rfl
  · unfold process_html_to_dataframe_symbol html_fromstring
    dsimp only
    rw [processRows_of_parse _ h]
    rfl

/-- Witness for C7 (amended) at a concrete parseable fragment and date. -/
theorem table_extractor_parseable_never_fails_witness :
    strptimeYMD "2024-07-04" = some ⟨2024, 7, 4⟩
    ∧ (process_html_to_dataframe_date (RawHtml.doc fragment7) "2024-07-04").toOption.isSome = true
    ∧ (process_html_to_dataframe_symbol (RawHtml.doc fragment7) "2024-07-04").toOption.isSome
        = true :=
  ⟨by decide,
   (table_extractor_parseable_never_fails.2.2 fragment7 "2024-07-04" ⟨2024, 7, 4⟩ (by decide)).1,
   (table_extractor_parseable_never_fails.2.2 fragment7 "2024-07-04" ⟨2024, 7, 4⟩ (by decide)).2⟩

/-- C5: `safe_float` / `safe_int` never raise — any parse failure of the
cleaned cell text is absorbed into the defaults `0.0` / `0` — and on the
cited cells they compute `safe_float "1,234.5" = 1234.5`,
`safe_float "-" = 0.0`, `safe_int "2,000" = 2000`. -/
theorem safe_float_safe_int_tolerant :
    (∀ s : String, pyFloat (cleanNum s) = none → safe_float s = 0)
    ∧ (∀ s : String, pyInt (cleanNum s) = none → safe_int s = 0)
    ∧ safe_float "1,234.5" = 1234.5
    ∧ safe_float "-" = 0
    ∧ safe_int "2,000" = 2000 := by
  refine ⟨?_, ?_, safe_float_comma_example, safe_float_dash_example, safe_int_comma_example⟩
  · intro s h
    unfold safe_float
    rw [h]
    rfl
  · intro s h
    unfold safe_int
    rw [h]
    rfl

/-- Witness for C5 at concrete non-numeric residues. -/
theorem safe_float_safe_int_tolerant_witness :
    pyFloat (cleanNum "abc") = none ∧ pyInt (cleanNum "x.y") = none
    ∧ safe_float "abc" = 0 ∧ safe_int "x.y" = 0 :=
  ⟨by decide, by decide,
   safe_float_safe_int_tolerant.1 "abc" (by decide),
   safe_float_safe_int_tolerant.2.1 "x.y" (by decide)⟩

/-- C10: the cleaning step replaces every dash anywhere in the cell with the
digit `'0'` before parsing (the cleaned text never contains a dash), so a
leading minus sign is never honored and the returned value is never
negative; in particular `safe_float "-5" = 5.0` and `safe_int "1-2" = 102`. -/
theorem safe_float_safe_int_dash_to_zero :
    (∀ s : String, (cleanNum s).count '-' = 0)
    ∧ (∀ s : String, 0 ≤ safe_float s)
    ∧ (∀ s : String, 0 ≤ safe_int s)
    ∧ safe_float "-5" = 5
    ∧ safe_int "1-2" = 102 := by
  refine ⟨?_, safe_float_nonneg, safe_int_nonneg, ?_, ?_⟩
  · intro s
    exact List.count_eq_zero.mpr (cleanNum_no_dash s)
  · have h : safe_float "-5" = ((digitsVal ['0', '5'] : ℚ)) := rfl
    have h2 : digitsVal ['0', '5'] = 5 := by decide
    rw [h, h2]
    norm_num
  · have h : safe_int "1-2" = ((digitsVal ['1', '0', '2'] : ℤ)) := rfl
    have h2 : digitsVal ['1', '0', '2'] = 102 := by decide
    rw [h, h2]
    norm_num

/-- C2: on a store hit, the date-only variant responds with the queried page
window (the date-matching rows ordered by serial ascending, offset
`(page-1)*page_size`, limit `page_size`) plus `page`, `page_size`, and
`total_records` equal to the full count of rows matching the date — an
expression independent of `page` and `page_size`; every returned row is a
store row matching the date. -/
theorem get_stock_by_date_store_hit :
    ∀ (store : List Nepse) (frag : RawHtml) (date : String) (dt : PyDate)
      (page page_size : Nat),
      strptimeYMD date = some dt →
      dbWindow store dt page page_size ≠ [] →
      (get_stock_by_date store frag date page page_size
          = .payload ((dbWindow store dt page page_size).map .fromDb) page page_size
              (queryByDate store dt).length)
      ∧ ((dbWindow store dt page page_size).map Nepse.Sn).Pairwise (· ≤ ·)
      ∧ ∀ r ∈ dbWindow store dt page page_size, r ∈ store ∧ r.Close_Date = dt := by
  intro store frag date dt page page_size hparse hne
  have hsub : List.Sublist (dbWindow store dt page page_size)
      (orderBySn (queryByDate store dt)) :=
    (List.take_sublist _ _).trans (List.drop_sublist _ _)
  refine ⟨?_, ?_, ?_⟩
  · unfold get_stock_by_date
    rw [hparse]
    dsimp only
    rw [if_pos hne]
  · haveI : IsTotal Nepse (fun a b => a.Sn ≤ b.Sn) := ⟨fun a b => Int.le_total a.Sn b.Sn⟩
    haveI : IsTrans Nepse (fun a b => a.Sn ≤ b.Sn) := ⟨fun a b c hab hbc => le_trans hab hbc⟩
    have hs : (orderBySn (queryByDate store dt)).Pairwise (fun a b : Nepse => a.Sn ≤ b.Sn) :=
      List.sorted_insertionSort _ _
    exact List.pairwise_map.mpr (List.Pairwise.sublist hsub hs)
  · intro r hr
    have h1 : r ∈ orderBySn (queryByDate store dt) := hsub.subset hr
    unfold orderBySn at h1
    have h2 : r ∈ queryByDate store dt := (List.perm_insertionSort _ _).subset h1
    unfold queryByDate at h2
    have h3 := List.mem_filter.mp h2
    exact ⟨h3.1, by simpa using h3.2⟩

/-- Witness for C2: three stored rows for 2024-07-03, `page=1`,
`page_size=5` — all three returned, `total_records = 3` (scenario A). -/
theorem get_stock_by_date_store_hit_witness :
    get_stock_by_date store3 RawHtml.emptyDoc "2024-07-03" 1 5
        = .payload ((dbWindow store3 ⟨2024, 7, 3⟩ 1 5).map .fromDb) 1 5
            (queryByDate store3 ⟨2024, 7, 3⟩).length
    ∧ (queryByDate store3 ⟨2024, 7, 3⟩).length = 3
    ∧ (dbWindow store3 ⟨2024, 7, 3⟩ 1 5).length = 3 :=
  ⟨(get_stock_by_date_store_hit store3 RawHtml.emptyDoc "2024-07-03" ⟨2024, 7, 3⟩ 1 5
      (by decide) (by decide)).1,
   by decide, by decide⟩

/-- C3: on a store miss, the date-only variant slices the extracted sequence
at `[(page-1)*page_size : page*page_size]` and reports `total_records` as
the length of the full extracted sequence. -/
theorem get_stock_by_date_fallback_pagination :
    ∀ (store : List Nepse) (frag : RawHtml) (date : String) (dt : PyDate)
      (page page_size : Nat) (df : List ScrapedRow),
      strptimeYMD date = some dt →
      dbWindow store dt page page_size = [] →
      process_html_to_dataframe_date frag date = .ok df →
      df ≠ [] →
      (df.drop ((page - 1) * page_size)).take page_size ≠ [] →
      get_stock_by_date store frag date page page_size
        = .payload (((df.drop ((page - 1) * page_size)).take page_size).map .fromScrape)
            page page_size df.length := by
  intro store frag date dt page page_size df hparse hwin hproc hdf hslice
  have hconv : convert_date_format date = some (strftimeMDY dt) := by
    unfold convert_date_format
    rw [hparse]
    rfl
  unfold get_stock_by_date
  rw [hparse]
  dsimp only
  rw [if_neg (by simp [hwin]), hconv]
  dsimp only
  rw [hproc]
  dsimp only
  rw [if_neg hdf]
  rw [if_neg hslice]

/-- Witness for C3 (scenario B): store empty, seven extracted rows,
`page=2`, `page_size=5` — the response is the slice `[5:10]` (the last two
records) with `total_records = 7`. -/
theorem get_stock_by_date_fallback_pagination_witness :
    get_stock_by_date [] (RawHtml.doc fragment7) "2024-07-04" 2 5
        = .payload (((df7.drop ((2 - 1) * 5)).take 5).map .fromScrape) 2 5 df7.length
    ∧ df7.length = 7
    ∧ ((df7.drop ((2 - 1) * 5)).take 5).length = 2
    ∧ (df7.drop ((2 - 1) * 5)).take 5 = df7.drop 5 :=
  ⟨get_stock_by_date_fallback_pagination [] (RawHtml.doc fragment7) "2024-07-04" ⟨2024, 7, 4⟩
      2 5 df7 (by decide) (by decide) rfl (by decide) (by decide),
   by decide, by decide, by decide⟩

/-- C4: on a store miss, an empty extracted sequence produces the
informational result "No data found for the specified date" (not an error,
not a success envelope), and a nonempty extracted sequence whose requested
page slice is empty produces the distinct informational result
"No data found on this page". -/
theorem get_stock_by_date_fallback_informational :
    (∀ (store : List Nepse) (frag : RawHtml) (date : String) (dt : PyDate)
       (page page_size : Nat),
       strptimeYMD date = some dt →
       dbWindow store dt page page_size = [] →
       process_html_to_dataframe_date frag date = .ok [] →
       get_stock_by_date store frag date page page_size
         = .message "No data found for the specified date")
    ∧ ∀ (store : List Nepse) (frag : RawHtml) (date : String) (dt : PyDate)
        (page page_size : Nat) (df : List ScrapedRow),
        strptimeYMD date = some dt →
        dbWindow store dt page page_size = [] →
        process_html_to_dataframe_date frag date = .ok df →
        df ≠ [] →
        (df.drop ((page - 1) * page_size)).take page_size = [] →
        get_stock_by_date store frag date page page_size
          = .message "No data found on this page" := by
  constructor
  · intro store frag date dt page page_size hparse hwin hproc
    have hconv : convert_date_format date = some (strftimeMDY dt) := by
      unfold convert_date_format
      rw [hparse]
      rfl
    unfold get_stock_by_date
    rw [hparse]
    dsimp only
    rw [if_neg (by simp [hwin]), hconv]
    dsimp only
    rw [hproc]
    dsimp only
    rw [if_pos rfl]
  · intro store frag date dt page page_size df hparse hwin hproc hdf hslice
    have hconv : convert_date_format date = some (strftimeMDY dt) := by
      unfold convert_date_format
      rw [hparse]
      rfl
    unfold get_stock_by_date
    rw [hparse]
    dsimp only
    rw [if_neg (by simp [hwin]), hconv]
    dsimp only
    rw [hproc]
    dsimp only
    rw [if_neg hdf]
    rw [if_pos hslice]

/-- Witness for C4: scenario C (empty fragment, hence zero extracted rows)
yields the "no data found" message; the seven-row fragment at `page=3`
(slice `[10:15]` empty) yields the "no data on this page" message. -/
theorem get_stock_by_date_fallback_informational_witness :
    get_stock_by_date [] (RawHtml.doc []) "2024-07-04" 1 5
        = .message "No data found for the specified date"
    ∧ get_stock_by_date [] (RawHtml.doc fragment7) "2024-07-04" 3 5
        = .message "No data found on this page" :=
  ⟨get_stock_by_date_fallback_informational.1 [] (RawHtml.doc []) "2024-07-04" ⟨2024, 7, 4⟩ 1 5
      (by decide) (by decide) rfl,
   get_stock_by_date_fallback_informational.2 [] (RawHtml.doc fragment7) "2024-07-04"
      ⟨2024, 7, 4⟩ 3 5 df7 (by decide) (by decide) rfl (by decide) (by decide)⟩

/-- C1 (code bug): the date+symbol variant's database query filters only by
the date — the `symbol` argument is not part of the filter — and ends in
`.first()`; the handler then iterates the single ORM instance, so every
store hit (for any requested symbol, matching or not) raises `TypeError`
instead of returning the date+symbol-filtered page. -/
theorem get_stock_by_date_and_symbol_store_hit_crashes :
    ∀ (store : List Nepse) (frag : RawHtml) (date : String) (dt : PyDate)
      (symbol : String) (page page_size : Nat),
      strptimeYMD date = some dt →
      dbWindow store dt page page_size ≠ [] →
      get_stock_by_date_and_symbol store frag date symbol page page_size
        = .crash "TypeError" := by
  intro store frag date dt symbol page page_size hparse hne
  obtain ⟨a, t, hat⟩ := List.exists_cons_of_ne_nil hne
  unfold get_stock_by_date_and_symbol
  rw [hparse]
  dsimp only
  rw [hat]
  rfl

/-- Witness for C1's failing input: the store holds only a row for symbol
"AAA" on 2024-07-03, yet a request for symbol "BBB" on that date still hits
the store (the symbol is ignored by the filter) and crashes. -/
theorem get_stock_by_date_and_symbol_store_hit_crashes_witness :
    get_stock_by_date_and_symbol store1 RawHtml.emptyDoc "2024-07-03" "BBB" 1 5
      = .crash "TypeError" :=
  get_stock_by_date_and_symbol_store_hit_crashes store1 RawHtml.emptyDoc "2024-07-03"
    ⟨2024, 7, 3⟩ "BBB" 1 5 (by decide) (by decide)

/-- C9 (code bug): `update_stock` finds the first (symbol, closeDate) match
and reassigns every column from the request — except the
market-capitalization column: the handler assigns the non-column attribute
`Market_Capitalization_Rs_Amt_in_Millions` (single underscore), so the
stored column keeps its old value (1 here, not the supplied 99); a request
with no matching row fails with 404 ("NotFound"). -/
theorem update_stock_skips_marketcap_column :
    update_stock [recA] "AAA" 2 2 2 2 2 2 2 "L2" 2 2 2 2 99 "2024-07-03"
        = .updated recA' [recA']
    ∧ recA'.Market_Capitalization_Rs__Amt_in_Millions = 1
    ∧ ¬ recA'.Market_Capitalization_Rs__Amt_in_Millions = 99
    ∧ update_stock [] "AAA" 2 2 2 2 2 2 2 "L2" 2 2 2 2 99 "2024-07-03"
        = .httpError 404 "Stock record not found." := by
  refine ⟨rfl, rfl, ?_, rfl⟩
  rw [show recA'.Market_Capitalization_Rs__Amt_in_Millions = 1 from rfl]
  norm_num
